import Mathlib

/-!
Shallow embedding of the cross-chain bridge relay front-end (src/script.py)
and verification of its specification claims.

Python integers are modelled as `Int`, float arithmetic is modelled exactly
over `ℚ`, strings as Lean `String`.  Random draws made by the simulation
(`random.random()`, `random.randint`, `random.choices`) are modelled as
explicit inputs ranging over exactly the values the corresponding Python
call can produce.  HTTP interactions of the shared `aiohttp` session are
modelled by the outcome classes the code distinguishes: a completed
response carrying a status code (and, for the price API, the optional
numeric price field of its JSON body), or a raised exception.  Raising and
catching of Python exceptions is made explicit with `Except`.
-/

namespace BridgeRelay

/-- Embeds the `DepositEvent` dataclass (src/script.py lines 20-30). -/
structure DepositEvent where
  transaction_hash : String
  source_chain_id : Int
  destination_chain_id : Int
  depositor : String
  recipient : String
  token_address : String
  amount : Int
  nonce : Int
deriving DecidableEq, Repr

/-- Hexadecimal digit test used by the address model. -/
def isHexDigitChar (c : Char) : Bool :=
  (('0' ≤ c) && (c ≤ '9')) || (('a' ≤ c) && (c ≤ 'f')) || (('A' ≤ c) && (c ≤ 'F'))

/-- Model of the external web3 library function `Web3.is_address`: accepts a
string of the form `0x` followed by exactly 40 hexadecimal digits.  The
EIP-55 mixed-case checksum validation that the real function additionally
performs on mixed-case inputs is abstracted to this form check (all
addresses appearing in this development are produced by
`to_checksum_address`, on which the real function also returns true). -/
def is_address (s : String) : Bool :=
  match s.data with
  | '0' :: 'x' :: rest => (rest.length == 40) && rest.all isHexDigitChar
  | _ => false

/-- Model of the external web3 library function `Web3.to_checksum_address`:
the real function only adjusts the letter case of the 40 hexadecimal digits
(EIP-55); since our `is_address` model is case-insensitive on the digits,
the case adjustment is abstracted to the identity. -/
def to_checksum_address (s : String) : String := s

/-- Model of the external web3 library function `Web3.to_hex`. -/
def to_hex (n : Nat) : String := "0x" ++ String.mk (Nat.toDigits 16 n)

/-- The character set that `random.choices('0123456789abcdef', k=40)`
draws from. -/
def charsetList : List Char := "0123456789abcdef".data

/-- One drawn character. -/
def charset (i : Fin 16) : Char := charsetList.getD i.val '0'

/-- The string `f"0x{''.join(random.choices('0123456789abcdef', k=40))}"`,
with the 40 random draws given explicitly. -/
def mkMockAddress (f : Fin 40 → Fin 16) : String :=
  "0x" ++ String.mk (List.ofFn fun i => charset (f i))

/-- The random draws consumed by one iteration of the polling loop of
`listen_for_deposits` together with those of `_generate_mock_event`:
`occurs` models `random.random() > 0.6`, `txRand` models
`random.randint(1, 10**18)`, the two choice functions model the two
`random.choices('0123456789abcdef', k=40)` calls, and `amtChoice` models
`random.randint(100, 10000)` as `100 + amtChoice`. -/
structure PollDraw where
  occurs : Bool
  txRand : Nat
  depChoice : Fin 40 → Fin 16
  recChoice : Fin 40 → Fin 16
  amtChoice : Fin 9901

/-- Embeds `BlockchainConnector._generate_mock_event` (src/script.py lines
98-109) for a connector whose `chain_id` is the first argument. -/
def _generate_mock_event (chain_id : Int) (nonce : Int) (d : PollDraw) : DepositEvent :=
  { transaction_hash := to_hex d.txRand
    source_chain_id := chain_id
    destination_chain_id := if chain_id = 1 then 137 else 1
    depositor := to_checksum_address (mkMockAddress d.depChoice)
    recipient := to_checksum_address (mkMockAddress d.recChoice)
    token_address := "0xA0b86991c6218b36c1d19D4a2e9Eb0cE3606eB48"
    amount := (((100 + d.amtChoice.val) * 10 ^ 6 : Nat) : Int)
    nonce := nonce }

/-- The polling loop of `listen_for_deposits` (src/script.py lines 79-96),
carrying the running `nonce_counter`.  Each `PollDraw` is one iteration;
an iteration emits an event exactly when its `occurs` draw fires, after
incrementing the counter.  The `await asyncio.sleep` calls and the
logging are effect-free in this model; the `except` branch only sleeps and
is likewise silent. -/
def listenLoop (chain_id : Int) : Nat → List PollDraw → List DepositEvent
  | _, [] => []
  | nonce_counter, d :: ds =>
    if d.occurs then
      _generate_mock_event chain_id ((nonce_counter + 1 : Nat) : Int) d ::
        listenLoop chain_id (nonce_counter + 1) ds
    else
      listenLoop chain_id nonce_counter ds

/-- Embeds `BlockchainConnector.listen_for_deposits` (src/script.py lines
72-96): the finite prefix of the emitted event sequence produced by a given
finite prefix of poll iterations, starting from `nonce_counter = 0`. -/
def listen_for_deposits (chain_id : Int) (draws : List PollDraw) : List DepositEvent :=
  listenLoop chain_id 0 draws

/-- Embeds `EventProcessor._is_valid_event` (src/script.py lines 161-167):
rejects on non-positive amount or a malformed depositor or recipient
address; performs no other check. -/
def _is_valid_event (e : DepositEvent) : Bool :=
  if e.amount ≤ 0 then false
  else if !(is_address e.depositor) || !(is_address e.recipient) then false
  else true

/-- Python exception classes relevant to the processor's handlers:
`clientError` stands for the `aiohttp.ClientError` class (connection
failures and the aiohttp-specific timeout errors deriving from it);
`timeoutError` for `asyncio.TimeoutError`, raised when the shared
session's default total timeout expires — it is NOT an
`aiohttp.ClientError`, so it is caught by `_get_token_price`'s broad
`except Exception` but not by the reporter's `except aiohttp.ClientError`;
`otherExc` for any other `Exception`. -/
inductive PyExc where
  | clientError
  | timeoutError
  | otherExc
deriving DecidableEq, Repr

/-- Outcome of the `session.get(Config.TOKEN_PRICE_API)` call together with
reading its JSON body: either a completed response with its status code and
the optional numeric `data.get('ethereum', {}).get('usd')` field, or a
raised exception. -/
inductive PriceResp where
  | resp (status : Nat) (usd : Option ℚ)
  | exc (e : PyExc)
deriving DecidableEq, Repr

/-- Outcome of the `session.post(Config.MONITORING_API_ENDPOINT, ...)`
call restricted to the caught fragment: a completed response with its
status code, or a raised `aiohttp.ClientError` — exactly the outcomes the
reporter's `except aiohttp.ClientError` clause anticipates.  The full
outcome space, which also contains exception classes that clause does not
catch (notably `asyncio.TimeoutError` from the session's default total
timeout), is `PostResp` below; `report_full_agrees` shows this fragment
model is the restriction of the full model. -/
inductive PostResult where
  | resp (status : Nat)
  | clientError
deriving DecidableEq, Repr

/-- The external world one `process_event` call interacts with: whether the
shared `aiohttp` session is open, and the outcomes of the price GET and the
monitoring POST.  The POST outcome ranges over the caught fragment
`PostResult`; the full space is `EnvFull` below, and
`process_event_full_agrees` shows the two models agree on this fragment. -/
structure Env where
  sessionOpen : Bool
  priceResp : PriceResp
  postResult : PostResult

/-- The body of `EventProcessor._get_token_price` (src/script.py lines
169-186) before its `except` clauses: `.error` marks a raised exception
(`raise_for_status` raises a `ClientResponseError`, an
`aiohttp.ClientError`, on a 4xx/5xx status).  `if price:` is Python float
truthiness: only a present, nonzero price is returned. -/
def _get_token_price_raw (sessionOpen : Bool) (r : PriceResp) : Except PyExc (Option ℚ) :=
  if sessionOpen = false then .ok none
  else
    match r with
    | .exc e => .error e
    | .resp status usd =>
      if 400 ≤ status then .error .clientError
      else
        match usd with
        | some p => if p = 0 then .ok none else .ok (some p)
        | none => .ok none

/-- Embeds `EventProcessor._get_token_price` (src/script.py lines 169-186):
the `except aiohttp.ClientError` and `except Exception` clauses both fall
through to `return None`, so every raised exception yields `none`. -/
def _get_token_price (sessionOpen : Bool) (r : PriceResp) : Option ℚ :=
  match _get_token_price_raw sessionOpen r with
  | .ok v => v
  | .error _ => none

/-- Python truthiness of the `token_price_usd` value
(`if token_price_usd:` in `process_event`): `None` and `0.0` are falsy. -/
def priceTruthy : Option ℚ → Bool
  | none => false
  | some p => if p = 0 then false else true

/-- The enriched value `(event.amount / 10**6) * token_price_usd`
(src/script.py line 148), float arithmetic modelled exactly over `ℚ`. -/
def valueUsd (e : DepositEvent) (p : ℚ) : ℚ := ((e.amount : ℚ) / 10 ^ 6) * p

/-- The canonical message
`f"{recipient}-{token_address}-{amount}-{nonce}-{destination_chain_id}"`
built by `_request_validator_signatures` (src/script.py line 193). -/
def message_to_sign (e : DepositEvent) : String :=
  e.recipient ++ "-" ++ e.token_address ++ "-" ++ toString e.amount ++ "-" ++
    toString e.nonce ++ "-" ++ toString e.destination_chain_id

/-- Embeds `EventProcessor._request_validator_signatures` (src/script.py
lines 188-196): the payload identifier is the keccak hash of
`message_to_sign`.  The external `Web3.keccak` function is abstracted as an
arbitrary function from strings to strings, passed as a parameter. -/
def _request_validator_signatures (keccak : String → String) (e : DepositEvent) : String :=
  keccak (message_to_sign e)

/-- The JSON payload POSTed to the monitoring service (src/script.py lines
200-207). -/
structure ReportPayload where
  tx_hash : String
  source_chain : Int
  dest_chain : Int
  amount : Int
  value_usd : ℚ
  status : String
deriving DecidableEq, Repr

/-- Builds the monitoring payload from an event and the value to report. -/
def reportPayload (e : DepositEvent) (v : ℚ) : ReportPayload :=
  { tx_hash := e.transaction_hash
    source_chain := e.source_chain_id
    dest_chain := e.destination_chain_id
    amount := e.amount
    value_usd := v
    status := "PROCESSED" }

/-- The local outcome `_report_to_monitoring_service` ends in (each case is
a log line in the source). -/
inductive ReportLog where
  | noSession
  | success
  | failedStatus (s : Nat)
  | clientErrorLogged
deriving DecidableEq, Repr

/-- The body of `EventProcessor._report_to_monitoring_service`
(src/script.py lines 198-219) before its `except` clause: the session
check returns early, a completed response is only inspected for its status
(no `raise_for_status`), and a failed POST raises. -/
def _report_raw (sessionOpen : Bool) (post : PostResult) : Except PyExc ReportLog :=
  if sessionOpen = false then .ok .noSession
  else
    match post with
    | .clientError => .error .clientError
    | .resp s => if s = 200 then .ok .success else .ok (.failedStatus s)

/-- Embeds `EventProcessor._report_to_monitoring_service` (src/script.py
lines 198-219): the `except aiohttp.ClientError` clause logs and returns,
so a client error is handled locally; any exception outside that class
would propagate (none arises under the `PostResult` model). -/
def _report_to_monitoring_service (sessionOpen : Bool) (post : PostResult) :
    Except PyExc ReportLog :=
  match _report_raw sessionOpen post with
  | .error .clientError => .ok .clientErrorLogged
  | r => r

/-- The externally visible calls `process_event` makes for an accepted
event: the signature-request dispatch (recorded by the canonical message
whose keccak hash is requested) and the monitoring report (recorded by the
POSTed payload). -/
inductive Action where
  | dispatch (message : String)
  | report (payload : ReportPayload)
deriving DecidableEq, Repr

/-- The value passed to `_report_to_monitoring_service` at src/script.py
line 157: `value_usd if token_price_usd else -1`, where `value_usd` is only
assigned (at line 148) under the same truthiness test, so the `getD 0`
default is never the value actually reported. -/
def reportedValue (env : Env) (e : DepositEvent) : ℚ :=
  let token_price_usd := _get_token_price env.sessionOpen env.priceResp
  if priceTruthy token_price_usd then valueUsd e (token_price_usd.getD 0) else -1

/-- Embeds `EventProcessor.process_event` (src/script.py lines 130-159):
validation gate, enrichment, dispatch, report.  The returned list records
the dispatch and report calls in the order the source performs them; an
invalid event returns with an empty call list.  A Python exception
escaping the body would surface as `.error`; the only call that can raise
in this model is the monitoring POST inside `_report_to_monitoring_service`. -/
def process_event (env : Env) (e : DepositEvent) : Except PyExc (List Action) :=
  if !(_is_valid_event e) then .ok []
  else
    match _report_to_monitoring_service env.sessionOpen env.postResult with
    | .error ex => .error ex
    | .ok _ =>
      .ok [Action.dispatch (message_to_sign e),
           Action.report (reportPayload e (reportedValue env e))]

/-- Embeds `CrossChainBridgeListener._listener_task` (src/script.py lines
250-254): one chain's lane consumes its listener's event sequence with
`async for`, awaiting `process_event` to completion for each event before
pulling the next — strictly sequential, in emission order.  `events` is a
finite prefix of the emitted sequence; `envs n` is the external world seen
by the processing of the n-th event.  The lane's trace pairs each event
with the calls made for it; an exception escaping `process_event` surfaces
as `.error` and ends the lane. -/
def _listener_task : List DepositEvent → (Nat → Env) →
    Except PyExc (List (DepositEvent × List Action))
  | [], _ => .ok []
  | e :: es, envs =>
    match process_event (envs 0) e with
    | .error ex => .error ex
    | .ok acts =>
      match _listener_task es (fun n => envs (n + 1)) with
      | .error ex => .error ex
      | .ok rest => .ok ((e, acts) :: rest)

/-- The nonces of the events a lane processed start-to-finish, in
processing order. -/
def processedNonces (r : Except PyExc (List (DepositEvent × List Action))) : List Int :=
  match r with
  | .ok tr => tr.map fun p => p.1.nonce
  | .error _ => []

/-- Embeds the `asyncio.gather(*tasks)` of `CrossChainBridgeListener.run`
(src/script.py lines 270-273) over the per-chain lanes: the run of all
lanes fails iff some lane's task raises (with default
`return_exceptions=False`, the first exception propagates out of
`gather`). -/
def runLanes : List (List DepositEvent × (Nat → Env)) →
    Except PyExc (List (List (DepositEvent × List Action)))
  | [] => .ok []
  | lane :: rest =>
    match _listener_task lane.1 lane.2 with
    | .error ex => .error ex
    | .ok tr =>
      match runLanes rest with
      | .error ex => .error ex
      | .ok trs => .ok (tr :: trs)

/-- Full model of the outcome of the
`session.post(Config.MONITORING_API_ENDPOINT, ...)` call, mirroring
`PriceResp`: a completed response with its status code, or a raised
exception of any class — including `asyncio.TimeoutError` from the
session's default total timeout, which is not an `aiohttp.ClientError`. -/
inductive PostResp where
  | resp (status : Nat)
  | exc (e : PyExc)
deriving DecidableEq, Repr

/-- The external world of one `process_event` call with the monitoring
POST ranging over its full outcome space. -/
structure EnvFull where
  sessionOpen : Bool
  priceResp : PriceResp
  postResult : PostResp

/-- The POST outcomes that the reporter's `except aiohttp.ClientError`
clause anticipates: a completed response of any status, or a raised
`aiohttp.ClientError`.  `asyncio.TimeoutError` and every other exception
class fall outside it. -/
def postCaught : PostResp → Bool
  | .resp _ => true
  | .exc .clientError => true
  | .exc _ => false

/-- Embedding of the caught fragment into the full POST outcome space. -/
def PostResult.toPostResp : PostResult → PostResp
  | .resp s => .resp s
  | .clientError => .exc .clientError

/-- Embedding of a caught-fragment environment into the full model. -/
def Env.toEnvFull (env : Env) : EnvFull :=
  { sessionOpen := env.sessionOpen
    priceResp := env.priceResp
    postResult := env.postResult.toPostResp }

/-- The body of `_report_to_monitoring_service` over the full POST outcome
space, before its `except` clause: the session check returns early, a
completed response is only inspected for its status, and a failed POST
raises whatever exception the library produced. -/
def _report_raw_full (sessionOpen : Bool) (post : PostResp) : Except PyExc ReportLog :=
  if sessionOpen = false then .ok .noSession
  else
    match post with
    | .exc e => .error e
    | .resp s => if s = 200 then .ok .success else .ok (.failedStatus s)

/-- `EventProcessor._report_to_monitoring_service` (src/script.py lines
198-219) over the full POST outcome space: the `except aiohttp.ClientError`
clause catches exactly `clientError`; `asyncio.TimeoutError` and any other
exception class propagate out of the method. -/
def _report_to_monitoring_service_full (sessionOpen : Bool) (post : PostResp) :
    Except PyExc ReportLog :=
  match _report_raw_full sessionOpen post with
  | .error .clientError => .ok .clientErrorLogged
  | r => r

/-- The reported value over the full model; identical in form to
`reportedValue`, whose environment lacks only uncaught POST outcomes. -/
def reportedValueFull (env : EnvFull) (e : DepositEvent) : ℚ :=
  let token_price_usd := _get_token_price env.sessionOpen env.priceResp
  if priceTruthy token_price_usd then valueUsd e (token_price_usd.getD 0) else -1

/-- `EventProcessor.process_event` over the full POST outcome space: same
control flow as `process_event`, but an uncaught exception raised by the
monitoring POST escapes the method as `.error`. -/
def process_event_full (env : EnvFull) (e : DepositEvent) : Except PyExc (List Action) :=
  if !(_is_valid_event e) then .ok []
  else
    match _report_to_monitoring_service_full env.sessionOpen env.postResult with
    | .error ex => .error ex
    | .ok _ =>
      .ok [Action.dispatch (message_to_sign e),
           Action.report (reportPayload e (reportedValueFull env e))]

/-- `CrossChainBridgeListener._listener_task` over the full model: the
`async for` lane awaits `process_event` per event in emission order; an
exception escaping `process_event` terminates the lane's task. -/
def _listener_task_full : List DepositEvent → (Nat → EnvFull) →
    Except PyExc (List (DepositEvent × List Action))
  | [], _ => .ok []
  | e :: es, envs =>
    match process_event_full (envs 0) e with
    | .error ex => .error ex
    | .ok acts =>
      match _listener_task_full es (fun n => envs (n + 1)) with
      | .error ex => .error ex
      | .ok rest => .ok ((e, acts) :: rest)

/-- The `asyncio.gather` of all lanes over the full model (default
`return_exceptions=False`): the first exception raised by any lane's task
propagates out of `gather`, ending the whole run. -/
def runLanes_full : List (List DepositEvent × (Nat → EnvFull)) →
    Except PyExc (List (List (DepositEvent × List Action)))
  | [] => .ok []
  | lane :: rest =>
    match _listener_task_full lane.1 lane.2 with
    | .error ex => .error ex
    | .ok tr =>
      match runLanes_full rest with
      | .error ex => .error ex
      | .ok trs => .ok (tr :: trs)

/-- Embeds the `BlockchainConnector` instance state (src/script.py lines
51-70); the web3 HTTP provider object is not modelled. -/
structure BlockchainConnector where
  chain_id : Int
  rpc_url : String
  contract_address : String
deriving DecidableEq, Repr

/-- Lookup in a Python dict modelled as an association list (first match). -/
def pyDictLookup {α : Type} : List (Int × α) → Int → Option α
  | [], _ => none
  | (k, v) :: rest, c => if k = c then some v else pyDictLookup rest c

/-- Python dict assignment `d[c] = v`: overwrite an existing key, else
append. -/
def pyDictInsert {α : Type} : List (Int × α) → Int → α → List (Int × α)
  | [], c, v => [(c, v)]
  | (k, w) :: rest, c, v =>
    if k = c then (c, v) :: rest else (k, w) :: pyDictInsert rest c v

/-- Embeds `Config.RPC_ENDPOINTS` (src/script.py lines 37-40). -/
def RPC_ENDPOINTS : List (Int × String) :=
  [(1, "https://mainnet.infura.io/v3/YOUR_INFURA_KEY"),
   (137, "https://polygon-rpc.com/")]

/-- Embeds `Config.BRIDGE_CONTRACT_ADDRESSES` (src/script.py lines 41-44). -/
def BRIDGE_CONTRACT_ADDRESSES : List (Int × String) :=
  [(1, "0xSourceBridgeContractAddress..."),
   (137, "0xDestBridgeContractAddress...")]

/-- A Python `KeyError` raised by a dict subscript. -/
structure PyKeyError where
  key : Int
deriving DecidableEq, Repr

/-- The loop of `_initialize_connectors` with the `self.connectors` dict as
accumulator: `chain_id not in Config.RPC_ENDPOINTS` skips with a logged
error; otherwise the two subscripts run, `BRIDGE_CONTRACT_ADDRESSES[chain_id]`
raising `KeyError` when the key is absent. -/
def initConnectorsLoop : List (Int × BlockchainConnector) → List Int →
    Except PyKeyError (List (Int × BlockchainConnector))
  | acc, [] => .ok acc
  | acc, c :: cs =>
    match pyDictLookup RPC_ENDPOINTS c with
    | none => initConnectorsLoop acc cs
    | some url =>
      match pyDictLookup BRIDGE_CONTRACT_ADDRESSES c with
      | none => .error { key := c }
      | some addr =>
        initConnectorsLoop
          (pyDictInsert acc c { chain_id := c, rpc_url := url, contract_address := addr }) cs

/-- Embeds `CrossChainBridgeListener._initialize_connectors` (src/script.py
lines 238-248), starting from the empty `self.connectors` dict. -/
def init_connectors (chains_to_listen : List Int) :
    Except PyKeyError (List (Int × BlockchainConnector)) :=
  initConnectorsLoop [] chains_to_listen

/-- A well-formed all-lowercase address used by concrete test events. -/
def addrA : String := "0x" ++ String.mk (List.replicate 40 'a')

/-- A second well-formed all-lowercase address. -/
def addrB : String := "0x" ++ String.mk (List.replicate 40 'b')

/-- A concrete event whose source and destination chain ids are both 1 but
which is otherwise unobjectionable: positive amount, well-formed addresses. -/
def sameChainEvent : DepositEvent :=
  { transaction_hash := "0xdeadbeef"
    source_chain_id := 1
    destination_chain_id := 1
    depositor := addrA
    recipient := addrB
    token_address := "0xA0b86991c6218b36c1d19D4a2e9Eb0cE3606eB48"
    amount := 1000000
    nonce := 7 }

/-- A concrete event with `amount = 0`. -/
def zeroAmountEvent : DepositEvent :=
  { transaction_hash := "0xdead"
    source_chain_id := 1
    destination_chain_id := 137
    depositor := addrA
    recipient := addrB
    token_address := "0xA0b86991c6218b36c1d19D4a2e9Eb0cE3606eB48"
    amount := 0
    nonce := 1 }

/-- A concrete valid cross-chain event with the given nonce, for lane
ordering scenarios. -/
def laneEvent (n : Int) : DepositEvent :=
  { transaction_hash := "0xfeed"
    source_chain_id := 1
    destination_chain_id := 137
    depositor := addrA
    recipient := addrB
    token_address := "0xA0b86991c6218b36c1d19D4a2e9Eb0cE3606eB48"
    amount := 5000000
    nonce := n }

/-- An environment where everything succeeds: open session, price API
returns 2000 with status 200, monitoring POST returns 200. -/
def envOk : Env :=
  { sessionOpen := true, priceResp := .resp 200 (some 2000), postResult := .resp 200 }

/-- An environment where the price fetch raises a network error
(enrichment unavailable) but reporting succeeds. -/
def envNoPrice : Env :=
  { sessionOpen := true, priceResp := .exc .clientError, postResult := .resp 200 }

/-- An environment where the monitoring POST raises an
`aiohttp.ClientError`. -/
def envReportErr : Env :=
  { sessionOpen := true, priceResp := .resp 200 (some 2000), postResult := .clientError }

/-- A full-model environment where everything succeeds. -/
def envFullOk : EnvFull :=
  { sessionOpen := true, priceResp := .resp 200 (some 2000), postResult := .resp 200 }

/-- A full-model environment where the monitoring POST raises an
`aiohttp.ClientError` (caught by the reporter). -/
def envFullReportErr : EnvFull :=
  { sessionOpen := true, priceResp := .resp 200 (some 2000),
    postResult := .exc .clientError }

/-- A full-model environment where the monitoring POST times out: the
session's total timeout expires and the POST raises
`asyncio.TimeoutError`, which the reporter's `except aiohttp.ClientError`
does not catch. -/
def envTimeout : EnvFull :=
  { sessionOpen := true, priceResp := .resp 200 (some 2000),
    postResult := .exc .timeoutError }

/-- Two events agreeing on `(recipient, tokenAddress, amount, nonce,
destinationChainId)` but differing in transaction hash, depositor and
source chain id: `evA` on chain 1 ... -/
def evA : DepositEvent :=
  { transaction_hash := "0x1111"
    source_chain_id := 1
    destination_chain_id := 137
    depositor := addrA
    recipient := addrB
    token_address := "0xA0b86991c6218b36c1d19D4a2e9Eb0cE3606eB48"
    amount := 4200000
    nonce := 9 }

/-- ... and `evB`, the same transfer seen with a different transaction
hash, depositor and source chain id. -/
def evB : DepositEvent :=
  { transaction_hash := "0x2222"
    source_chain_id := 5
    destination_chain_id := 137
    depositor := addrB
    recipient := addrB
    token_address := "0xA0b86991c6218b36c1d19D4a2e9Eb0cE3606eB48"
    amount := 4200000
    nonce := 9 }

/-! Helper lemmas. -/

/-- Every character of the mock charset is a hexadecimal digit. -/
theorem charset_hex : ∀ i : Fin 16, isHexDigitChar (charset i) = true := by decide

/-- The character data underlying a generated mock address. -/
theorem mkMockAddress_data (f : Fin 40 → Fin 16) :
    (mkMockAddress f).data = '0' :: 'x' :: List.ofFn (fun i => charset (f i)) := rfl

/-- A generated mock address is well-formed. -/
theorem is_address_mkMockAddress (f : Fin 40 → Fin 16) :
    is_address (mkMockAddress f) = true := by
  show (match (mkMockAddress f).data with
    | '0' :: 'x' :: rest => (rest.length == 40) && rest.all isHexDigitChar
    | _ => false) = true
  rw [mkMockAddress_data]
  simp only [List.length_ofFn, Bool.and_eq_true, beq_iff_eq, List.all_eq_true]
  refine ⟨trivial, ?_⟩
  intro x hx
  rw [List.mem_ofFn] at hx
  obtain ⟨i, rfl⟩ := hx
  exact charset_hex (f i)

/-- The amount of every generated mock event is strictly positive. -/
theorem mock_amount_pos (chain_id nonce : Int) (d : PollDraw) :
    0 < (_generate_mock_event chain_id nonce d).amount := by
  show (0 : Int) < (((100 + d.amtChoice.val) * 10 ^ 6 : Nat) : Int)
  have h : 0 < (100 + d.amtChoice.val) * 10 ^ 6 := by positivity
  exact_mod_cast h

/-- The validator accepts exactly on positive amount and well-formed
addresses; no other field is examined. -/
theorem is_valid_of (e : DepositEvent) (ha : 0 < e.amount)
    (hd : is_address e.depositor = true) (hr : is_address e.recipient = true) :
    _is_valid_event e = true := by
  unfold _is_valid_event
  rw [if_neg (not_le.mpr ha), hd, hr]
  simp

/-- Every event emitted by the polling loop started at counter `n` carries
a nonce strictly above `n`. -/
theorem listenLoop_nonce_gt (chain_id : Int) (ds : List PollDraw) :
    ∀ n : Nat, ∀ e ∈ listenLoop chain_id n ds, (n : Int) < e.nonce := by
  induction ds with
  | nil => intro n e he; simp [listenLoop] at he
  | cons d ds ih =>
    intro n e he
    rw [listenLoop] at he
    by_cases ho : d.occurs
    · rw [if_pos ho] at he
      rcases List.mem_cons.mp he with rfl | he
      · show (n : Int) < ((n + 1 : Nat) : Int)
        exact_mod_cast Nat.lt_succ_self n
      · calc (n : Int) < ((n + 1 : Nat) : Int) := by exact_mod_cast Nat.lt_succ_self n
          _ < e.nonce := ih (n + 1) e he
    · rw [if_neg ho] at he
      exact ih n e he

/-- The nonces emitted by the polling loop are pairwise strictly
increasing in emission order, whatever the starting counter. -/
theorem listenLoop_pairwise (chain_id : Int) (ds : List PollDraw) :
    ∀ n : Nat, ((listenLoop chain_id n ds).map DepositEvent.nonce).Pairwise (· < ·) := by
  induction ds with
  | nil => intro n; simp [listenLoop]
  | cons d ds ih =>
    intro n
    rw [listenLoop]
    by_cases ho : d.occurs
    · rw [if_pos ho, List.map_cons]
      refine List.Pairwise.cons ?_ (ih (n + 1))
      intro x hx
      rw [List.mem_map] at hx
      obtain ⟨e, he, rfl⟩ := hx
      exact listenLoop_nonce_gt chain_id ds (n + 1) e he
    · rw [if_neg ho]
      exact ih n

/-! Claim C6. -/

/-- C6: for every single `BlockchainConnector.listen_for_deposits` run and
every pair of events it emits, a later-emitted event's nonce is strictly
greater than every earlier-emitted event's nonce: the emitted nonce list is
pairwise strictly increasing, for every chain and every sequence of poll
outcomes. -/
theorem C6_listener_nonces_strictly_increase (chain_id : Int) (draws : List PollDraw) :
    ((listen_for_deposits chain_id draws).map DepositEvent.nonce).Pairwise (· < ·) :=
  listenLoop_pairwise chain_id draws 0

/-! Claim C10. -/

/-- C10: every event produced by `_generate_mock_event` has a strictly
positive amount, well-formed (checksummed) depositor and recipient
addresses, and a destination chain id different from its source chain id;
consequently every listener-emitted event passes `_is_valid_event`. -/
theorem C10_mock_events_valid (chain_id nonce : Int) (d : PollDraw) :
    0 < (_generate_mock_event chain_id nonce d).amount ∧
    is_address (_generate_mock_event chain_id nonce d).depositor = true ∧
    is_address (_generate_mock_event chain_id nonce d).recipient = true ∧
    (_generate_mock_event chain_id nonce d).source_chain_id ≠
      (_generate_mock_event chain_id nonce d).destination_chain_id ∧
    _is_valid_event (_generate_mock_event chain_id nonce d) = true := by
  have ha := mock_amount_pos chain_id nonce d
  have hd : is_address (_generate_mock_event chain_id nonce d).depositor = true :=
    is_address_mkMockAddress d.depChoice
  have hr : is_address (_generate_mock_event chain_id nonce d).recipient = true :=
    is_address_mkMockAddress d.recChoice
  refine ⟨ha, hd, hr, ?_, is_valid_of _ ha hd hr⟩
  show chain_id ≠ (if chain_id = 1 then 137 else 1)
  by_cases h : chain_id = 1 <;> simp [h]

/-- The monitoring report never lets an exception escape: the session
check, the non-2xx branch and the `except aiohttp.ClientError` clause all
end in a local log. -/
theorem report_ok (s : Bool) (p : PostResult) :
    ∃ log, _report_to_monitoring_service s p = .ok log := by
  rcases s with _ | _
  · exact ⟨.noSession, rfl⟩
  · rcases p with st | _
    · by_cases h : st = 200 <;>
        simp [_report_to_monitoring_service, _report_raw, h]
    · exact ⟨.clientErrorLogged, rfl⟩

/-- On a valid event, `process_event` performs exactly the dispatch call
followed by the report call, with the reported value `reportedValue`. -/
theorem process_event_valid (env : Env) (e : DepositEvent)
    (hv : _is_valid_event e = true) :
    process_event env e =
      .ok [Action.dispatch (message_to_sign e),
           Action.report (reportPayload e (reportedValue env e))] := by
  obtain ⟨log, hlog⟩ := report_ok env.sessionOpen env.postResult
  simp [process_event, hv, hlog]

/-- On an invalid event, `process_event` returns with no dispatch and no
report call. -/
theorem process_event_invalid (env : Env) (e : DepositEvent)
    (hv : _is_valid_event e = false) :
    process_event env e = .ok [] := by
  simp [process_event, hv]

/-- `process_event` never lets an exception escape, whatever the event and
whatever the session, price and report outcomes. -/
theorem process_event_ok (env : Env) (e : DepositEvent) :
    ∃ acts, process_event env e = .ok acts := by
  rcases h : _is_valid_event e with _ | _
  · exact ⟨[], process_event_invalid env e h⟩
  · exact ⟨_, process_event_valid env e h⟩

/-- A lane never dies: for every event stream and every sequence of
external outcomes, `_listener_task` completes with a trace processing
exactly its stream, in stream order. -/
theorem listener_task_ok (es : List DepositEvent) :
    ∀ envs : Nat → Env,
      ∃ tr, _listener_task es envs = .ok tr ∧ tr.map Prod.fst = es := by
  induction es with
  | nil => intro envs; exact ⟨[], rfl, rfl⟩
  | cons e es ih =>
    intro envs
    obtain ⟨acts, hacts⟩ := process_event_ok (envs 0) e
    obtain ⟨tr, htr, hmap⟩ := ih (fun n => envs (n + 1))
    refine ⟨(e, acts) :: tr, ?_, ?_⟩
    · simp [_listener_task, hacts, htr]
    · simp [hmap]

/-- `_get_token_price` never returns a zero price (the `if price:`
truthiness guard filters it out). -/
theorem get_token_price_ne_zero (s : Bool) (r : PriceResp) (p : ℚ)
    (h : _get_token_price s r = some p) : p ≠ 0 := by
  unfold _get_token_price _get_token_price_raw at h
  rcases s with _ | _
  · simp at h
  · rcases r with ⟨status, usd⟩ | ex
    · by_cases h4 : 400 ≤ status
      · simp [h4] at h
      · rcases usd with _ | q
        · simp [h4] at h
        · by_cases hq : q = 0
          · simp [h4, hq] at h
          · simp [h4, hq] at h
            simp_all
    · simp at h

/-- When the price fetch came back unavailable, the reported value is the
sentinel `-1`. -/
theorem reportedValue_none (env : Env) (e : DepositEvent)
    (h : _get_token_price env.sessionOpen env.priceResp = none) :
    reportedValue env e = -1 := by
  simp [reportedValue, h, priceTruthy]

/-- When the price fetch returned a price, the reported value is
`(amount / 10^6) * price`. -/
theorem reportedValue_some (env : Env) (e : DepositEvent) (p : ℚ)
    (h : _get_token_price env.sessionOpen env.priceResp = some p) :
    reportedValue env e = valueUsd e p := by
  have hp := get_token_price_ne_zero _ _ _ h
  simp [reportedValue, h, priceTruthy, hp]

/-! Claim C1. -/

/-- C1 (counterexample): a concrete event whose source and destination
chain ids are both 1, with positive amount and well-formed addresses, is
NOT rejected: `_is_valid_event` returns true and `process_event` dispatches
and reports it rather than dropping it — refuting the claim that the
validator rejects every event with `sourceChainId = destinationChainId`. -/
theorem C1_counterexample :
    sameChainEvent.source_chain_id = sameChainEvent.destination_chain_id ∧
    _is_valid_event sameChainEvent = true ∧
    process_event envOk sameChainEvent =
      .ok [Action.dispatch (message_to_sign sameChainEvent),
           Action.report (reportPayload sameChainEvent (reportedValue envOk sameChainEvent))] :=
  ⟨rfl, by decide, process_event_valid envOk sameChainEvent (by decide)⟩

/-- C1 (amended): `_is_valid_event` does not compare the chain ids.  Every
DepositEvent with positive amount and well-formed depositor and recipient
addresses — in particular one whose `sourceChainId` equals its
`destinationChainId` — is accepted by `_is_valid_event`, dispatched and
reported by `process_event`; rejection happens only for `amount <= 0` or a
malformed address. -/
theorem C1_same_chain_event_accepted (e : DepositEvent) (env : Env)
    (_hsame : e.source_chain_id = e.destination_chain_id)
    (ha : 0 < e.amount)
    (hd : is_address e.depositor = true) (hr : is_address e.recipient = true) :
    _is_valid_event e = true ∧
    process_event env e =
      .ok [Action.dispatch (message_to_sign e),
           Action.report (reportPayload e (reportedValue env e))] := by
  have hv := is_valid_of e ha hd hr
  exact ⟨hv, process_event_valid env e hv⟩

/-- Witness for C1: the amended theorem evaluated at the concrete
same-chain event. -/
theorem C1_witness :
    _is_valid_event sameChainEvent = true ∧
    process_event envNoPrice sameChainEvent =
      .ok [Action.dispatch (message_to_sign sameChainEvent),
           Action.report (reportPayload sameChainEvent (reportedValue envNoPrice sameChainEvent))] :=
  C1_same_chain_event_accepted sameChainEvent envNoPrice rfl (by decide) (by decide) (by decide)

/-- The caught-fragment reporter is the restriction of the full-model
reporter: on every outcome the `except` clause anticipates, the two
models agree. -/
theorem report_full_agrees (s : Bool) (p : PostResult) :
    _report_to_monitoring_service_full s p.toPostResp =
      _report_to_monitoring_service s p := by
  rcases s with _ | _ <;> rcases p with st | _
  · rfl
  · rfl
  · by_cases h200 : st = 200 <;>
      simp [_report_to_monitoring_service_full, _report_raw_full,
        _report_to_monitoring_service, _report_raw, PostResult.toPostResp, h200]
  · rfl

/-- The caught-fragment processor is the restriction of the full-model
processor: on every environment whose POST outcome the `except` clause
anticipates, the two models agree. -/
theorem process_event_full_agrees (env : Env) (e : DepositEvent) :
    process_event_full env.toEnvFull e = process_event env e := by
  unfold process_event_full process_event
  rw [show env.toEnvFull.sessionOpen = env.sessionOpen from rfl,
    show env.toEnvFull.postResult = env.postResult.toPostResp from rfl,
    report_full_agrees env.sessionOpen env.postResult]
  rfl

/-- The full-model reporter ends in a local log on every anticipated
outcome: a completed response of any status, a raised
`aiohttp.ClientError`, or a closed session. -/
theorem report_full_ok_of_caught (s : Bool) (p : PostResp)
    (h : (!s || postCaught p) = true) :
    ∃ log, _report_to_monitoring_service_full s p = .ok log := by
  rcases s with _ | _
  · exact ⟨.noSession, rfl⟩
  · simp only [Bool.not_true, Bool.false_or] at h
    rcases p with st | e
    · by_cases h200 : st = 200 <;>
        simp [_report_to_monitoring_service_full, _report_raw_full, h200]
    · rcases e with _ | _ | _
      · exact ⟨.clientErrorLogged, rfl⟩
      · simp [postCaught] at h
      · simp [postCaught] at h

/-- The full-model processor raises nothing when the POST outcome is one
the reporter's `except` clause anticipates (or the session is closed). -/
theorem process_event_full_ok_of_caught (env : EnvFull) (e : DepositEvent)
    (h : (!env.sessionOpen || postCaught env.postResult) = true) :
    ∃ acts, process_event_full env e = .ok acts := by
  obtain ⟨log, hlog⟩ := report_full_ok_of_caught env.sessionOpen env.postResult h
  rcases hv : _is_valid_event e with _ | _
  · exact ⟨[], by simp [process_event_full, hv]⟩
  · exact ⟨[Action.dispatch (message_to_sign e),
        Action.report (reportPayload e (reportedValueFull env e))],
      by simp [process_event_full, hv, hlog]⟩

/-- A full-model lane whose POST outcomes all stay within the anticipated
classes completes without raising. -/
theorem listener_task_full_ok_of_caught (es : List DepositEvent) :
    ∀ envs : Nat → EnvFull,
      (∀ n, (!(envs n).sessionOpen || postCaught (envs n).postResult) = true) →
      ∃ tr, _listener_task_full es envs = .ok tr := by
  induction es with
  | nil => intro envs _; exact ⟨[], rfl⟩
  | cons e es ih =>
    intro envs h
    obtain ⟨acts, hacts⟩ := process_event_full_ok_of_caught (envs 0) e (h 0)
    obtain ⟨tr, htr⟩ := ih (fun n => envs (n + 1)) (fun n => h (n + 1))
    exact ⟨(e, acts) :: tr, by simp [_listener_task_full, hacts, htr]⟩

/-! Claim C2. -/

/-- C2 (counterexample): a reporting timeout is NOT handled locally.  When
the monitoring POST raises `asyncio.TimeoutError` (the session's default
total timeout), the reporter's `except aiohttp.ClientError` does not catch
it: the exception escapes `_report_to_monitoring_service` and
`process_event`, terminates that event's lane, and — with
`asyncio.gather`'s default `return_exceptions=False` — propagates and ends
the sibling chains' run as well, refuting the claim that every reporting
failure (including timeout) is handled locally and terminates no lane. -/
theorem C2_counterexample :
    _report_to_monitoring_service_full true (.exc .timeoutError) = .error .timeoutError ∧
    process_event_full envTimeout (laneEvent 1) = .error .timeoutError ∧
    runLanes_full [([laneEvent 1], fun _ => envTimeout), ([laneEvent 2], fun _ => envFullOk)]
      = .error .timeoutError :=
  ⟨rfl, rfl, rfl⟩

/-- C2 (amended): reporting failures within the classes the reporter's
`except` clause anticipates — a non-2xx response status or a raised
`aiohttp.ClientError` (network errors and aiohttp's own timeout classes) —
and reporting attempts on a closed session are handled locally inside the
event's own lane and terminate neither that lane nor any sibling chain's
listener task: for every collection of lanes, every event stream and every
sequence of such outcomes, the gather of all lanes completes without any
lane raising.  A reporting failure raising outside `aiohttp.ClientError`
(e.g. `asyncio.TimeoutError` from the session's total timeout) escapes and
terminates the run — so not only fatal configuration errors can surface to
the process boundary. -/
theorem C2_caught_report_failures_local
    (lanes : List (List DepositEvent × (Nat → EnvFull)))
    (h : ∀ lane ∈ lanes, ∀ n : Nat,
      (!(lane.2 n).sessionOpen || postCaught (lane.2 n).postResult) = true) :
    ∃ outs, runLanes_full lanes = .ok outs := by
  revert h
  induction lanes with
  | nil => intro _; exact ⟨[], rfl⟩
  | cons lane rest ih =>
    intro h
    obtain ⟨tr, htr⟩ :=
      listener_task_full_ok_of_caught lane.1 lane.2 (h lane (List.mem_cons_self lane rest))
    obtain ⟨outs, houts⟩ := ih (fun l hl n => h l (List.mem_cons_of_mem lane hl) n)
    exact ⟨tr :: outs, by simp [runLanes_full, htr, houts]⟩

/-- Witness for C2: two concrete lanes — one whose report POST raises a
caught `aiohttp.ClientError`, one where everything succeeds — complete
without any lane raising. -/
theorem C2_witness :
    ∃ outs, runLanes_full
      [([laneEvent 1], fun _ => envFullReportErr), ([laneEvent 2], fun _ => envFullOk)]
      = .ok outs :=
  C2_caught_report_failures_local
    [([laneEvent 1], fun _ => envFullReportErr), ([laneEvent 2], fun _ => envFullOk)]
    (by
      intro lane hlane n
      rcases List.mem_cons.mp hlane with rfl | hlane
      · rfl
      · rcases List.mem_cons.mp hlane with rfl | hlane
        · rfl
        · simp at hlane)

/-! Claim C3. -/

/-- C3 (counterexample): the lane has no reordering mechanism.  If two
events of chain 1 with nonces 3 then 2 arrived in that order, the lane
would process them start-to-finish in arrival order 3 then 2 — not in
nonce order 2 then 3 as the claim's scenario states. -/
theorem C3_counterexample :
    processedNonces (_listener_task [laneEvent 3, laneEvent 2] (fun _ => envOk)) = [3, 2] ∧
    ¬ (processedNonces
        (_listener_task [laneEvent 3, laneEvent 2] (fun _ => envOk))).Pairwise (· < ·) := by
  refine ⟨by decide, ?_⟩
  intro hp
  rw [show processedNonces (_listener_task [laneEvent 3, laneEvent 2] (fun _ => envOk))
      = [3, 2] by decide] at hp
  rcases hp with _ | ⟨h3, _⟩
  have := h3 2 (by simp)
  omega

/-- C3 (amended): a chain's lane processes its events strictly
sequentially in arrival (emission) order — it never reorders — so whenever
the incoming stream's nonces are strictly increasing (which
`listen_for_deposits` guarantees for its emissions), the events are
processed start-to-finish in strictly increasing nonce order; an
out-of-order arrival would be processed in arrival order, but cannot arise
from the listener.  No ordering holds across different chains' lanes. -/
theorem C3_lane_processes_in_arrival_order (events : List DepositEvent) (envs : Nat → Env)
    (h : (events.map DepositEvent.nonce).Pairwise (· < ·)) :
    ∃ tr, _listener_task events envs = .ok tr ∧
      tr.map Prod.fst = events ∧
      ((tr.map Prod.fst).map DepositEvent.nonce).Pairwise (· < ·) := by
  obtain ⟨tr, htr, hmap⟩ := listener_task_ok events envs
  exact ⟨tr, htr, hmap, by rw [hmap]; exact h⟩

/-- Witness for C3: the amended theorem evaluated on the in-order stream
with nonces 2 then 3. -/
theorem C3_witness :
    ∃ tr, _listener_task [laneEvent 2, laneEvent 3] (fun _ => envOk) = .ok tr ∧
      tr.map Prod.fst = [laneEvent 2, laneEvent 3] ∧
      ((tr.map Prod.fst).map DepositEvent.nonce).Pairwise (· < ·) :=
  C3_lane_processes_in_arrival_order [laneEvent 2, laneEvent 3] (fun _ => envOk)
    (by simp [laneEvent])

/-! Claim C4. -/

/-- C4: for every otherwise-valid event, enrichment unavailability never
changes the terminal state.  For every environment the event reaches
exactly the dispatched-and-reported terminal trace, with only the reported
value varying; and when the price fetch returned `none` (network error,
4xx/5xx, malformed body, missing or closed session), the same dispatch and
report calls happen with the value marked unknown (`-1`). -/
theorem C4_enrichment_unavailability_immaterial (e : DepositEvent) (env : Env)
    (hv : _is_valid_event e = true) :
    (∃ v, process_event env e =
      .ok [Action.dispatch (message_to_sign e), Action.report (reportPayload e v)]) ∧
    (_get_token_price env.sessionOpen env.priceResp = none →
      process_event env e =
        .ok [Action.dispatch (message_to_sign e),
             Action.report (reportPayload e (-1))]) := by
  refine ⟨⟨reportedValue env e, process_event_valid env e hv⟩, ?_⟩
  intro h
  rw [process_event_valid env e hv, reportedValue_none env e h]

/-- Witness for C4: the theorem evaluated at a concrete valid event in an
environment whose price fetch raises a network error. -/
theorem C4_witness :
    (∃ v, process_event envNoPrice (laneEvent 1) =
      .ok [Action.dispatch (message_to_sign (laneEvent 1)),
           Action.report (reportPayload (laneEvent 1) v)]) ∧
    (_get_token_price envNoPrice.sessionOpen envNoPrice.priceResp = none →
      process_event envNoPrice (laneEvent 1) =
        .ok [Action.dispatch (message_to_sign (laneEvent 1)),
             Action.report (reportPayload (laneEvent 1) (-1))]) :=
  C4_enrichment_unavailability_immaterial (laneEvent 1) envNoPrice (by decide)

/-! Claim C5. -/

/-- C5: the dispatch payload identifier computed by
`_request_validator_signatures` is a deterministic function of
`(recipient, tokenAddress, amount, nonce, destinationChainId)`: any two
events agreeing on that tuple — whatever their transaction hash, depositor
and source chain id — yield the identical identifier, for every hash
function; in particular computing it twice for the same event yields the
same identifier. -/
theorem C5_payload_identifier_deterministic (keccak : String → String)
    (e1 e2 : DepositEvent)
    (hrec : e1.recipient = e2.recipient) (htok : e1.token_address = e2.token_address)
    (hamt : e1.amount = e2.amount) (hn : e1.nonce = e2.nonce)
    (hdest : e1.destination_chain_id = e2.destination_chain_id) :
    _request_validator_signatures keccak e1 = _request_validator_signatures keccak e2 := by
  unfold _request_validator_signatures message_to_sign
  rw [hrec, htok, hamt, hn, hdest]

/-- Witness for C5: two concrete events differing in transaction hash,
depositor and source chain id but agreeing on the canonical tuple get the
same payload identifier. -/
theorem C5_witness :
    _request_validator_signatures (fun s => s) evA =
      _request_validator_signatures (fun s => s) evB :=
  C5_payload_identifier_deterministic (fun s => s) evA evB rfl rfl rfl rfl rfl

/-! Claim C7. -/

/-- C7: every event with `amount <= 0` (in particular `amount = 0`) is
rejected by `process_event`, which emits no dispatch call and no report
call for it. -/
theorem C7_nonpositive_amount_dropped (e : DepositEvent) (env : Env)
    (h : e.amount ≤ 0) :
    process_event env e = .ok [] := by
  apply process_event_invalid
  unfold _is_valid_event
  rw [if_pos h]

/-- Witness for C7: the concrete zero-amount event is dropped with an
empty call trace. -/
theorem C7_witness : process_event envOk zeroAmountEvent = .ok [] :=
  C7_nonpositive_amount_dropped zeroAmountEvent envOk (by decide)

/-! Claim C9. -/

/-- C9: for every valid event, the `value_usd` of the monitoring payload
is `(amount / 10^6) * price` when the price fetch returned a price, and is
the sentinel `-1` when the price fetch returned `None`. -/
theorem C9_reported_value (e : DepositEvent) (env : Env)
    (hv : _is_valid_event e = true) :
    process_event env e =
      .ok [Action.dispatch (message_to_sign e),
           Action.report (reportPayload e (reportedValue env e))] ∧
    (∀ p, _get_token_price env.sessionOpen env.priceResp = some p →
      reportedValue env e = ((e.amount : ℚ) / 10 ^ 6) * p) ∧
    (_get_token_price env.sessionOpen env.priceResp = none →
      reportedValue env e = -1) := by
  refine ⟨process_event_valid env e hv, ?_, reportedValue_none env e⟩
  intro p hp
  rw [reportedValue_some env e p hp]
  rfl

/-- Witness for C9: the theorem evaluated at a concrete valid event in the
all-success environment. -/
theorem C9_witness :
    process_event envOk (laneEvent 1) =
      .ok [Action.dispatch (message_to_sign (laneEvent 1)),
           Action.report (reportPayload (laneEvent 1) (reportedValue envOk (laneEvent 1)))] ∧
    (∀ p, _get_token_price envOk.sessionOpen envOk.priceResp = some p →
      reportedValue envOk (laneEvent 1) = (((laneEvent 1).amount : ℚ) / 10 ^ 6) * p) ∧
    (_get_token_price envOk.sessionOpen envOk.priceResp = none →
      reportedValue envOk (laneEvent 1) = -1) :=
  C9_reported_value (laneEvent 1) envOk (by decide)

/-- Looking up the freshly assigned key of a dict finds the new value. -/
theorem pyDictLookup_insert_self {α : Type} (m : List (Int × α)) (c : Int) (v : α) :
    pyDictLookup (pyDictInsert m c v) c = some v := by
  induction m with
  | nil => simp [pyDictInsert, pyDictLookup]
  | cons kv rest ih =>
    obtain ⟨k, w⟩ := kv
    by_cases h : k = c
    · subst h
      simp [pyDictInsert, pyDictLookup]
    · simp [pyDictInsert, pyDictLookup, h, ih]

/-- Dict assignment leaves every other key's binding unchanged. -/
theorem pyDictLookup_insert_ne {α : Type} (m : List (Int × α)) (c c' : Int) (v : α)
    (hne : c' ≠ c) : pyDictLookup (pyDictInsert m c v) c' = pyDictLookup m c' := by
  have hne' : c ≠ c' := Ne.symm hne
  induction m with
  | nil => simp [pyDictInsert, pyDictLookup, hne']
  | cons kv rest ih =>
    obtain ⟨k, w⟩ := kv
    by_cases h : k = c
    · subst h
      simp [pyDictInsert, pyDictLookup, hne']
    · simp [pyDictInsert, pyDictLookup, h, ih]

/-- Every chain id configured in `RPC_ENDPOINTS` is also configured in
`BRIDGE_CONTRACT_ADDRESSES`, so the subscript on the latter never raises
for a chain that passed the membership check. -/
theorem rpc_implies_bridge (c : Int) (u : String)
    (h : pyDictLookup RPC_ENDPOINTS c = some u) :
    (pyDictLookup BRIDGE_CONTRACT_ADDRESSES c).isSome = true := by
  by_cases h1 : (1 : Int) = c
  · rw [← h1]
    rfl
  · by_cases h137 : (137 : Int) = c
    · rw [← h137]
      rfl
    · simp [RPC_ENDPOINTS, pyDictLookup, h1, h137] at h

/-- The connector-initialization loop never raises, skips every chain id
absent from `RPC_ENDPOINTS`, keeps existing connectors, and creates a
connector for every listed chain id present in `RPC_ENDPOINTS`. -/
theorem initConnectorsLoop_spec (cs : List Int) :
    ∀ acc : List (Int × BlockchainConnector),
      ∃ m, initConnectorsLoop acc cs = .ok m ∧
        (∀ c, pyDictLookup RPC_ENDPOINTS c = none →
          pyDictLookup m c = pyDictLookup acc c) ∧
        (∀ c, (pyDictLookup acc c).isSome = true → (pyDictLookup m c).isSome = true) ∧
        (∀ c ∈ cs, (pyDictLookup RPC_ENDPOINTS c).isSome = true →
          (pyDictLookup m c).isSome = true) := by
  induction cs with
  | nil =>
    intro acc
    exact ⟨acc, rfl, fun c _ => rfl, fun c h => h, by simp⟩
  | cons c0 cs ih =>
    intro acc
    rcases hc : pyDictLookup RPC_ENDPOINTS c0 with _ | u
    · obtain ⟨m, hm, hnone, hmono, hmem⟩ := ih acc
      refine ⟨m, ?_, hnone, hmono, ?_⟩
      · simp [initConnectorsLoop, hc, hm]
      · intro c hcmem hcs
        rcases List.mem_cons.mp hcmem with rfl | hmemtail
        · rw [hc] at hcs
          simp at hcs
        · exact hmem c hmemtail hcs
    · have hb := rpc_implies_bridge c0 u hc
      rcases hb' : pyDictLookup BRIDGE_CONTRACT_ADDRESSES c0 with _ | addr
      · rw [hb'] at hb
        simp at hb
      · obtain ⟨m, hm, hnone, hmono, hmem⟩ :=
          ih (pyDictInsert acc c0 { chain_id := c0, rpc_url := u, contract_address := addr })
        refine ⟨m, ?_, ?_, ?_, ?_⟩
        · simp [initConnectorsLoop, hc, hb', hm]
        · intro c hrpc
          have hne : c ≠ c0 := by
            rintro rfl
            rw [hc] at hrpc
            cases hrpc
          rw [hnone c hrpc, pyDictLookup_insert_ne acc c0 c _ hne]
        · intro c hsome
          apply hmono
          by_cases hne : c = c0
          · subst hne
            rw [pyDictLookup_insert_self]
            rfl
          · rw [pyDictLookup_insert_ne acc c0 c _ hne]
            exact hsome
        · intro c hcmem hrpc
          rcases List.mem_cons.mp hcmem with rfl | hmemtail
          · apply hmono
            rw [pyDictLookup_insert_self]
            rfl
          · exact hmem c hmemtail hrpc

/-! Claim C8. -/

/-- C8: for every list of chain ids passed at startup, connector
initialization completes without raising; chain ids whose configuration is
missing get no connector (they are skipped with a logged error), and every
listed chain id that is configured gets a connector — a bad chain id never
aborts initialization of the remaining chains. -/
theorem C8_unconfigured_chains_skipped (chains : List Int) :
    ∃ m, init_connectors chains = .ok m ∧
      (∀ c, pyDictLookup RPC_ENDPOINTS c = none → pyDictLookup m c = none) ∧
      (∀ c ∈ chains, (pyDictLookup RPC_ENDPOINTS c).isSome = true →
        (pyDictLookup m c).isSome = true) := by
  obtain ⟨m, hm, hnone, _, hmem⟩ := initConnectorsLoop_spec chains []
  exact ⟨m, hm, fun c hc => hnone c hc, hmem⟩

/-- Witness for C8: startup with the configured chains 1 and 137 plus the
unconfigured chain 42 completes, skipping only chain 42. -/
theorem C8_witness :
    ∃ m, init_connectors [1, 42, 137] = .ok m ∧
      (∀ c, pyDictLookup RPC_ENDPOINTS c = none → pyDictLookup m c = none) ∧
      (∀ c ∈ [(1 : Int), 42, 137], (pyDictLookup RPC_ENDPOINTS c).isSome = true →
        (pyDictLookup m c).isSome = true) :=
  C8_unconfigured_chains_skipped [1, 42, 137]

end BridgeRelay
